import Mathlib

/-!
Verification of the rcarve CAM toolpath core (crates/rcarve/src) against its
natural-language specification.

The Rust source is shallowly embedded:
* `f64` scalars are embedded as `ℚ` wherever the code only performs field
  arithmetic and comparisons; the circle-flattening claim, which rests on
  trigonometric identities, is embedded over `ℝ`.
* External geometry kernels (clipper2 `inflate`/`difference`, the geo crate's
  `euclidean_distance`, geo_buffer's straight skeleton, cavalier_contours'
  parallel offset) and transcendental library calls (`tan`, `cos`, `sin`) are
  not part of this repository; they are passed in as explicit function
  parameters ("oracles"), so every theorem quantifies over their behaviour.
* The unbounded `loop` in the pocket generator is embedded with explicit fuel:
  `none` models a non-terminating run, `some` a run that returned.
* Impure reads (`SystemTime::now`) become explicit `now : ℕ` parameters.
-/

/-- A 2D point, mirroring `(f64, f64)`. -/
abbrev Point2 : Type := ℚ × ℚ

/-- A 3D point, mirroring `(f64, f64, f64)`. -/
abbrev Point3 : Type := ℚ × ℚ × ℚ

/-- A 2D polyline, mirroring `Vec<(f64, f64)>`. -/
abbrev Path2 : Type := List Point2

/-- A 3D polyline, mirroring `Vec<(f64, f64, f64)>`. -/
abbrev Path3 : Type := List Point3

/-- `types.rs`: `Toolpath { paths: Vec<Vec<(f64,f64,f64)>> }`. -/
structure Toolpath where
  paths : List Path3
deriving DecidableEq, Repr

/-- `types.rs`: `ToolType`. -/
inductive ToolType where
  | endmill (diameter : ℚ)
  | vbit (angleDegrees : ℚ)
  | ballnose (diameter : ℚ)
deriving DecidableEq, Repr

/-- `types.rs`: `Tool`. -/
structure Tool where
  name : String
  diameter : ℚ
  stepover : ℚ
  passDepth : ℚ
  toolType : ToolType
deriving DecidableEq, Repr

/-- `types.rs`: `CutSide`. -/
inductive CutSide where
  | inside
  | outside
  | onLine
deriving DecidableEq, Repr

/-- `types.rs`: `OperationTarget` (curve/region IDs embedded as `ℕ`). -/
inductive OperationTarget where
  | curves (ids : List ℕ)
  | region (id : ℕ)
deriving DecidableEq, Repr

/-- `types.rs`: `Operation`. -/
inductive Operation where
  | profile (targetDepth : ℚ) (cutSide : CutSide) (toolIndex : ℕ)
      (targets : OperationTarget)
  | pocket (targetDepth : ℚ) (toolIndex : ℕ) (target : OperationTarget)
  | vcarve (targetDepth : Option ℚ) (toolIndex : ℕ) (targets : OperationTarget)
      (clearanceToolIndex : Option ℕ)
deriving DecidableEq, Repr

/-- `tool_library.rs`: `ToolLibrary { tools: Vec<Tool> }`. -/
structure ToolLibrary where
  tools : List Tool
deriving DecidableEq, Repr

/-!
## Post-processor (`postprocessor.rs`)

`post_process_grbl` builds a `Vec<String>`.  Each pushed line is one of a fixed
set of shapes; the embedding replaces the formatted string by a constructor
carrying the formatted coordinates, so `GrblLine.rapid x y` stands for the
string `format!("G0 X{:.4} Y{:.4}", x, y)`, and `GrblLine.gz10` for the literal
`"G0 Z10.0"` (used both in the header and as the per-path retract, exactly as
in the source).
-/

/-- One emitted G-code line of `post_process_grbl`. -/
inductive GrblLine where
  | g90
  | g21
  | g17
  | gz10
  | rapid (x y : ℚ)
  | plunge (z : ℚ)
  | cut (x y : ℚ)
deriving DecidableEq, Repr

/-- `postprocessor.rs` lines 4-35: the imperative loop, translated as a left
fold over `toolpath.paths` carrying the `lines` vector. -/
def postProcessGrbl (toolpath : Toolpath) : List GrblLine :=
  let lines : List GrblLine := [GrblLine.g90, GrblLine.g21, GrblLine.g17, GrblLine.gz10]
  toolpath.paths.foldl
    (fun lines path =>
      match path with
      | [] => lines
      | start :: rest =>
          ((lines ++ [GrblLine.rapid start.1 start.2.1, GrblLine.plunge start.2.2])
              ++ rest.map (fun point => GrblLine.cut point.1 point.2.1))
            ++ [GrblLine.gz10])
    lines

/-- The four header lines of §4.8 of the spec. -/
def grblHeader : List GrblLine :=
  [GrblLine.g90, GrblLine.g21, GrblLine.g17, GrblLine.gz10]

/-- The per-path block of §4.8 of the spec, written from the spec's words:
rapid to the first vertex, plunge, one cut per remaining vertex, retract;
an empty path contributes nothing. -/
def grblPathBlockSpec (path : Path3) : List GrblLine :=
  match path with
  | [] => []
  | start :: rest =>
      GrblLine.rapid start.1 start.2.1 :: GrblLine.plunge start.2.2 ::
        (rest.map (fun point => GrblLine.cut point.1 point.2.1) ++ [GrblLine.gz10])

/-- Each fold step appends the spec's per-path block. -/
theorem postProcess_step_eq (lines : List GrblLine) (path : Path3) :
    (match path with
      | [] => lines
      | start :: rest =>
          ((lines ++ [GrblLine.rapid start.1 start.2.1, GrblLine.plunge start.2.2])
              ++ rest.map (fun point => GrblLine.cut point.1 point.2.1))
            ++ [GrblLine.gz10]) = lines ++ grblPathBlockSpec path := by
  cases path with
  | nil => simp [grblPathBlockSpec]
  | cons start rest => simp [grblPathBlockSpec]

/-- Folding an append-step equals appending the flattened blocks. -/
theorem foldl_append_blocks (paths : List Path3) (acc : List GrblLine) :
    paths.foldl
      (fun lines path =>
        match path with
        | [] => lines
        | start :: rest =>
            ((lines ++ [GrblLine.rapid start.1 start.2.1, GrblLine.plunge start.2.2])
                ++ rest.map (fun point => GrblLine.cut point.1 point.2.1))
              ++ [GrblLine.gz10])
      acc = acc ++ paths.flatMap grblPathBlockSpec := by
  induction paths generalizing acc with
  | nil => simp
  | cons p ps ih =>
      rw [List.foldl_cons, postProcess_step_eq, ih, List.flatMap_cons, List.append_assoc]

/-- Claim C1: `post_process_grbl` emits exactly the four header lines `G90`,
`G21`, `G17`, `G0 Z10.0` first and once; then, for each non-empty path in
order, a rapid to the first vertex, a plunge, one cut line per remaining
vertex, and a retract; empty paths contribute no lines, so an empty toolpath
yields exactly the four header lines and nothing else. -/
theorem c1_post_process_grbl :
    (∀ toolpath : Toolpath,
        postProcessGrbl toolpath = grblHeader ++ toolpath.paths.flatMap grblPathBlockSpec)
      ∧ postProcessGrbl ⟨[]⟩ = grblHeader := by
  constructor
  · intro toolpath
    unfold postProcessGrbl grblHeader
    exact foldl_append_blocks toolpath.paths _
  · rfl

/-!
## Pocket generator (`pocket.rs`)

`generate_pocket_toolpath` delegates its geometry to the external clipper2
crate.  clipper2's `Polygons` (a vector of polygons, each a vector of paths) is
embedded as `PolySet`; `difference` and `inflate` are oracle parameters.  The
source's unbounded `loop` is given explicit fuel: a `none` result models a run
of the Rust function that never terminates, `some r` a run returning `r`.
The function body constructs no error value, so the result type is
`Option (Except String Toolpath)` with `Except.error` never produced.
-/

/-- clipper2 `Polygons`: a list of polygons, each a list of paths. -/
abbrev PolySet : Type := List (List Path2)

/-- `pocket.rs` lines 68-77: extract every non-empty path of an offset
result, in order. -/
def collectPocketPaths (result : PolySet) : List Path2 :=
  result.flatMap (fun polygon => polygon.filter (fun path => !path.isEmpty))

/-- `pocket.rs` lines 51-81: repeatedly deflate `current` until the offset
result holds no polygons, collecting each round's non-empty paths.  `fuel`
bounds the number of iterations; exhausting it models non-termination. -/
def pocketLoop (inflateStep : PolySet → PolySet) : ℕ → PolySet → Option (List Path2)
  | 0, _ => none
  | fuel + 1, current =>
      let offsetResult := inflateStep current
      if offsetResult.isEmpty then some []
      else
        match pocketLoop inflateStep fuel offsetResult with
        | none => none
        | some rest => some (collectPocketPaths offsetResult ++ rest)

/-- Append the first vertex when the path is non-empty and its first vertex
differs from its last (`if !p.is_empty() && p[0] != *p.last().unwrap()` in the
source: for the empty path `head? = getLast? = none`, so the condition is
false there exactly as in the source, and otherwise `head? ≠ getLast?` is
first-vertex ≠ last-vertex). -/
def closeIfOpen (p : Path3) : Path3 :=
  if p.head? ≠ p.getLast? then p ++ p.head?.toList else p

/-- `pocket.rs` lines 88-98: lift a 2D ring to `z = -target_depth` and close
it when open. -/
def closeRing3d (targetZ : ℚ) (ring : Path2) : Path3 :=
  closeIfOpen (ring.map (fun v => (v.1, v.2, targetZ)))

/-- `pocket.rs` lines 18-43 (steps 2 and 3): the initial pocket region, the
outer boundary minus the islands when there are any. -/
def pocketInitialRegion (differenceOracle : PolySet → PolySet → PolySet)
    (outerBoundary : Path2) (islands : List Path2) : PolySet :=
  if islands.isEmpty then [[outerBoundary]]
  else differenceOracle [[outerBoundary]] (islands.map (fun island => [island]))

/-- `pocket.rs` lines 9-103: `generate_pocket_toolpath`, with clipper2's
`difference` and `inflate` as oracles and fuel for the deflation loop. -/
def generatePocketToolpath
    (differenceOracle : PolySet → PolySet → PolySet)
    (inflateOracle : PolySet → ℚ → PolySet)
    (fuel : ℕ)
    (outerBoundary : Path2) (islands : List Path2)
    (tool : Tool) (targetDepth : ℚ) : Option (Except String Toolpath) :=
  match pocketLoop (fun current => inflateOracle current (-(tool.diameter * tool.stepover)))
      fuel (pocketInitialRegion differenceOracle outerBoundary islands) with
  | none => none
  | some pocketPaths =>
      some (Except.ok ⟨pocketPaths.map (closeRing3d (-targetDepth))⟩)

/-- `closeIfOpen` always yields a path whose first and last entries agree
(vacuously for the empty path). -/
theorem closeIfOpen_closed (p : Path3) :
    (closeIfOpen p).head? = (closeIfOpen p).getLast? := by
  unfold closeIfOpen
  split_ifs with h
  · cases p with
    | nil => simp at h
    | cons first rest =>
        have hlast : ((first :: rest) ++ [first]).getLast? = some first :=
          List.getLast?_concat _
        simpa using hlast.symm
  · exact not_ne_iff.mp h

/-- Every vertex of `closeIfOpen p` is a vertex of `p`. -/
theorem mem_of_mem_closeIfOpen (p : Path3) (v : Point3) (hv : v ∈ closeIfOpen p) :
    v ∈ p := by
  unfold closeIfOpen at hv
  split_ifs at hv with h
  · rcases List.mem_append.mp hv with h1 | h1
    · exact h1
    · cases p with
      | nil => simp at h1
      | cons first rest =>
          simp only [List.head?_cons, Option.toList_some, List.mem_singleton] at h1
          simp [h1]
  · exact hv

/-- Claim C2: whenever `generate_pocket_toolpath` returns `Ok`, every path of
the returned toolpath is closed (its first vertex equals its last, the first
vertex having been appended when absent) and every vertex sits at
`z = -target_depth`.  Quantified over the clipper2 oracles and the loop fuel. -/
theorem c2_pocket_closed_at_depth
    (differenceOracle : PolySet → PolySet → PolySet)
    (inflateOracle : PolySet → ℚ → PolySet)
    (fuel : ℕ) (outerBoundary : Path2) (islands : List Path2)
    (tool : Tool) (targetDepth : ℚ) (tp : Toolpath)
    (h : generatePocketToolpath differenceOracle inflateOracle fuel
          outerBoundary islands tool targetDepth = some (Except.ok tp)) :
    ∀ p ∈ tp.paths, p.head? = p.getLast? ∧ ∀ v ∈ p, v.2.2 = -targetDepth := by
  unfold generatePocketToolpath at h
  cases hpl : pocketLoop
      (fun current => inflateOracle current (-(tool.diameter * tool.stepover))) fuel
      (pocketInitialRegion differenceOracle outerBoundary islands) with
  | none => rw [hpl] at h; exact absurd h (by simp)
  | some pocketPaths =>
      rw [hpl] at h
      have htp : tp = ⟨pocketPaths.map (closeRing3d (-targetDepth))⟩ := by
        cases h
        rfl
      subst htp
      intro p hp
      simp only [List.mem_map] at hp
      obtain ⟨ring, _, hring⟩ := hp
      subst hring
      refine ⟨closeIfOpen_closed _, ?_⟩
      intro v hv
      have hmem := mem_of_mem_closeIfOpen _ _ hv
      simp only [List.mem_map] at hmem
      obtain ⟨w, _, hw⟩ := hmem
      rw [← hw]

/-- Concrete data for the pocket witnesses: a 100-style square scaled to 10. -/
def sqOuterW : Path2 := [(0, 0), (10, 0), (10, 10), (0, 10), (0, 0)]

/-- A non-closed inner ring returned by the witness inflate oracle. -/
def ringInnerW : Path2 := [(2, 2), (8, 2), (8, 8), (2, 8)]

/-- The 6 mm end-mill of the source's tests. -/
def endmill6W : Tool := ⟨"6mm Endmill", 6, 2/5, 5, ToolType.endmill 6⟩

/-- Witness for C2: a run in which the inflate oracle yields one inner ring
and then collapses; the returned path is closed and its vertices sit at
`z = -5`, here checked at the path and one vertex of that run. -/
theorem c2_witness :
    ([(2, 2, -5), (8, 2, -5), (8, 8, -5), (2, 8, -5), (2, 2, -5)] : Path3).head?
        = ([(2, 2, -5), (8, 2, -5), (8, 8, -5), (2, 8, -5), (2, 2, -5)] : Path3).getLast?
      ∧ ((8 : ℚ), (2 : ℚ), (-5 : ℚ)).2.2 = -(5 : ℚ) :=
  have h := c2_pocket_closed_at_depth
    (fun a _ => a)
    (fun ps _ => if ps = [[sqOuterW]] then [[ringInnerW]] else [])
    2 sqOuterW [] endmill6W 5
    ⟨[[(2, 2, -5), (8, 2, -5), (8, 8, -5), (2, 8, -5), (2, 2, -5)]]⟩
    (by rfl)
  have hp := h [(2, 2, -5), (8, 2, -5), (8, 8, -5), (2, 8, -5), (2, 2, -5)] (by simp)
  ⟨hp.1, hp.2 (8, 2, -5) (by simp)⟩

/-- Counterexample to claim C5 (the claim says `generate_pocket_toolpath`
returns an error whenever the initial region after island subtraction is
empty): here the island covers the outer boundary, the Boolean-difference
oracle reports the empty region, and the call still returns `Ok` with an
empty path list — the source contains no error return at all. -/
theorem c5_counterexample :
    pocketInitialRegion (fun _ _ => []) sqOuterW [sqOuterW] = [] ∧
    generatePocketToolpath (fun _ _ => []) (fun _ _ => []) 1
        sqOuterW [sqOuterW] endmill6W 5 = some (Except.ok ⟨[]⟩) := by
  constructor
  · rfl
  · rfl

/-- Claim C5 as amended: `generate_pocket_toolpath` never returns `Err` — every
terminating run returns `Ok` — and in particular, when the initial pocket
region after island subtraction is empty (and deflating the empty region
yields nothing, as clipper2 does), the call returns `Ok` with an empty path
list rather than an error. -/
theorem c5_amended_pocket_never_errors
    (differenceOracle : PolySet → PolySet → PolySet)
    (inflateOracle : PolySet → ℚ → PolySet)
    (fuel : ℕ) (outerBoundary : Path2) (islands : List Path2)
    (tool : Tool) (targetDepth : ℚ) (r : Except String Toolpath)
    (h : generatePocketToolpath differenceOracle inflateOracle fuel
          outerBoundary islands tool targetDepth = some r) :
    (∃ tp, r = Except.ok tp) ∧
    (pocketInitialRegion differenceOracle outerBoundary islands = [] →
      inflateOracle [] (-(tool.diameter * tool.stepover)) = [] →
      r = Except.ok ⟨[]⟩) := by
  unfold generatePocketToolpath at h
  cases hpl : pocketLoop
      (fun current => inflateOracle current (-(tool.diameter * tool.stepover))) fuel
      (pocketInitialRegion differenceOracle outerBoundary islands) with
  | none => rw [hpl] at h; exact absurd h (by simp)
  | some pocketPaths =>
      rw [hpl] at h
      have hr : r = Except.ok ⟨pocketPaths.map (closeRing3d (-targetDepth))⟩ := by
        cases h
        rfl
      constructor
      · exact ⟨_, hr⟩
      · intro hempty hinfl
        cases fuel with
        | zero => rw [hempty] at hpl; exact absurd hpl (by simp [pocketLoop])
        | succ fuel =>
            rw [hempty] at hpl
            unfold pocketLoop at hpl
            simp only [hinfl, List.isEmpty_nil, if_true] at hpl
            cases hpl
            simpa using hr

/-- Witness for the amended C5 at a concrete input: empty region, `Ok` with no
paths. -/
theorem c5_amended_witness :
    (∃ tp, (Except.ok (⟨[]⟩ : Toolpath) : Except String Toolpath) = Except.ok tp) ∧
    (pocketInitialRegion (fun _ _ => []) sqOuterW [sqOuterW] = [] →
      (fun (_ : PolySet) (_ : ℚ) => ([] : PolySet)) []
          (-(endmill6W.diameter * endmill6W.stepover)) = [] →
      (Except.ok (⟨[]⟩ : Toolpath) : Except String Toolpath) = Except.ok ⟨[]⟩) :=
  c5_amended_pocket_never_errors (fun _ _ => []) (fun _ _ => []) 1
    sqOuterW [sqOuterW] endmill6W 5 (Except.ok ⟨[]⟩) (by rfl)

/-!
## Profile generator (`profile.rs`)

`generate_profile_toolpath` calls clipper2's `inflate` once (oracle parameter)
and fails exactly when the result has no first polygon or that polygon has no
first path.  The behaviour of clipper2 on degenerate input (fewer than three
distinct vertices) is not part of this repository; claims about it carry an
explicit hypothesis on the oracle.
-/

/-- `profile.rs` lines 16-21: the signed offset delta for a cut side. -/
def profileOffsetDelta (tool : Tool) (cutSide : CutSide) : ℚ :=
  match cutSide with
  | CutSide.outside => tool.diameter / 2
  | CutSide.inside => -(tool.diameter / 2)
  | CutSide.onLine => 0

/-- `profile.rs` lines 9-71: `generate_profile_toolpath` with clipper2's
`inflate` as an oracle. -/
def generateProfileToolpath
    (inflateOracle : PolySet → ℚ → PolySet)
    (inputPoly : Path2) (tool : Tool) (cutSide : CutSide)
    (targetDepth : ℚ) : Except String Toolpath :=
  match (inflateOracle [[inputPoly]] (profileOffsetDelta tool cutSide)).head? with
  | none => Except.error "No offset polygon generated - polygon may have collapsed"
  | some offsetPolygon =>
      match offsetPolygon.head? with
      | none => Except.error "No offset path generated"
      | some offsetPath =>
          Except.ok ⟨[offsetPath.map (fun vertex => (vertex.1, vertex.2, -targetDepth))]⟩

/-- The offset produced no geometry: no polygon at all, or a first polygon
with no paths. -/
def offsetCollapsed (offsetPolygons : PolySet) : Prop :=
  match offsetPolygons.head? with
  | none => True
  | some offsetPolygon => offsetPolygon = []

/-- Claim C4: `generate_profile_toolpath` errs exactly when the offset produced
no geometry; and — under the hypothesis, supplied for the external clipper2
kernel, that offsetting a polyline with fewer than three distinct vertices
yields no geometry — every input with fewer than three distinct vertices
fails. -/
theorem c4_profile_error_conditions
    (inflateOracle : PolySet → ℚ → PolySet)
    (inputPoly : Path2) (tool : Tool) (cutSide : CutSide) (targetDepth : ℚ)
    (hdegenerate : ∀ (q : Path2) (delta : ℚ),
      q.dedup.length < 3 → inflateOracle [[q]] delta = []) :
    ((∃ e, generateProfileToolpath inflateOracle inputPoly tool cutSide targetDepth
          = Except.error e)
        ↔ offsetCollapsed (inflateOracle [[inputPoly]] (profileOffsetDelta tool cutSide)))
      ∧ (inputPoly.dedup.length < 3 →
          ∃ e, generateProfileToolpath inflateOracle inputPoly tool cutSide targetDepth
            = Except.error e) := by
  have hmain : (∃ e, generateProfileToolpath inflateOracle inputPoly tool cutSide targetDepth
        = Except.error e)
      ↔ offsetCollapsed (inflateOracle [[inputPoly]] (profileOffsetDelta tool cutSide)) := by
    unfold generateProfileToolpath offsetCollapsed
    cases hp : (inflateOracle [[inputPoly]] (profileOffsetDelta tool cutSide)).head? with
    | none => simp
    | some offsetPolygon =>
        show (∃ e,
            (match offsetPolygon.head? with
              | none => (Except.error "No offset path generated" : Except String Toolpath)
              | some offsetPath =>
                  Except.ok ⟨[offsetPath.map (fun vertex => (vertex.1, vertex.2, -targetDepth))]⟩)
              = Except.error e) ↔ offsetPolygon = []
        cases hq : offsetPolygon.head? with
        | none =>
            have hnil : offsetPolygon = [] := List.head?_eq_none_iff.mp hq
            simp [hnil]
        | some offsetPath =>
            have hne : offsetPolygon ≠ [] := by
              intro hcon
              rw [hcon] at hq
              exact absurd hq (by simp)
            simp [hne]
  refine ⟨hmain, ?_⟩
  intro hdeg
  refine hmain.mpr ?_
  rw [hdegenerate inputPoly _ hdeg]
  unfold offsetCollapsed
  simp

/-- Witness for C4: the constantly-empty oracle satisfies the degenerate-input
hypothesis, and a two-distinct-vertex input fails. -/
theorem c4_witness :
    ((∃ e, generateProfileToolpath (fun _ _ => []) [(0, 0), (1, 1)] endmill6W
          CutSide.outside 5 = Except.error e)
        ↔ offsetCollapsed ((fun (_ : PolySet) (_ : ℚ) => ([] : PolySet)) [[[(0, 0), (1, 1)]]]
            (profileOffsetDelta endmill6W CutSide.outside)))
      ∧ (([(0, 0), (1, 1)] : Path2).dedup.length < 3 →
          ∃ e, generateProfileToolpath (fun _ _ => []) [(0, 0), (1, 1)] endmill6W
            CutSide.outside 5 = Except.error e) :=
  c4_profile_error_conditions (fun _ _ => []) [(0, 0), (1, 1)] endmill6W
    CutSide.outside 5 (fun _ _ _ => rfl)

/-!
## Project model (`project.rs`)

Only the fields that the verified operations read or write are embedded:
`operations` and `operation_states`.  (`meta`, `stock`, `shapes`,
`imported_svgs` and the legacy `toolpaths` vector are never touched by
`mark_operation_dirty`, `update_operation`, `attach_toolpath` or the
orchestrator loop, which copy or mutate `operation_states` only.)
`generated_at_epoch_ms` timestamps are plain `ℕ` values supplied by the
caller, mirroring the single impure `current_epoch_ms()` read.
-/

/-- `project.rs`: `ToolpathPassKind`. -/
inductive ToolpathPassKind where
  | clearance
  | finish
deriving DecidableEq, Repr

/-- `project.rs`: `ToolpathPass`. -/
structure ToolpathPass where
  toolIndex : ℕ
  kind : ToolpathPassKind
  toolpath : Toolpath
deriving DecidableEq, Repr

/-- `project.rs`: `ToolpathArtifact`. -/
structure ToolpathArtifact where
  operationIndex : ℕ
  toolpath : Toolpath
  passes : List ToolpathPass
  generatedAtEpochMs : ℕ
  warnings : List String
  isValid : Bool
deriving DecidableEq, Repr

/-- `project.rs`: `OperationState { dirty, artifact }`. -/
structure OperationState where
  dirty : Bool
  artifact : Option ToolpathArtifact
deriving DecidableEq, Repr

/-- `project.rs`: `OperationState::dirty()`. -/
def OperationState.dirtyState : OperationState := ⟨true, none⟩

/-- `project.rs`: `ToolpathStatus`. -/
inductive ToolpathStatus where
  | dirty
  | ready (generatedAtEpochMs : ℕ) (warningCount : ℕ)
  | invalid (warnings : List String)
deriving DecidableEq, Repr

/-- `project.rs` lines 353-371: `OperationState::status`. -/
def OperationState.status (s : OperationState) : ToolpathStatus :=
  if s.dirty then ToolpathStatus.dirty
  else
    match s.artifact with
    | some artifact =>
        if artifact.isValid then
          ToolpathStatus.ready artifact.generatedAtEpochMs artifact.warnings.length
        else ToolpathStatus.invalid artifact.warnings
    | none => ToolpathStatus.dirty

/-- `project.rs`: `Project`, restricted to the fields the verified operations
touch. -/
structure Project where
  operations : List Operation
  operationStates : List OperationState
deriving DecidableEq, Repr

/-- Rust `Vec` `get_mut(index)` followed by a field assignment: modify the
entry when present, otherwise leave the list unchanged. -/
def modifyStateAt (states : List OperationState) (index : ℕ)
    (f : OperationState → OperationState) : List OperationState :=
  if h : index < states.length then states.set index (f (states.get ⟨index, h⟩))
  else states

/-- `project.rs` lines 185-191: `ensure_operation_states_len`. -/
def ensureOperationStatesLen (p : Project) : Project :=
  if p.operationStates.length < p.operations.length then
    { p with
        operationStates := p.operationStates ++
          List.replicate (p.operations.length - p.operationStates.length)
            OperationState.dirtyState }
  else p

/-- `project.rs` lines 193-197: `ensure_operation_state`. -/
def ensureOperationState (p : Project) (index : ℕ) : Project :=
  if p.operationStates.length ≤ index then ensureOperationStatesLen p else p

/-- `project.rs` lines 146-152: `mark_operation_dirty` sets `dirty` and drops
the cached artifact. -/
def markOperationDirty (p : Project) (index : ℕ) : Project :=
  let p1 := ensureOperationState p index
  { p1 with
      operationStates :=
        modifyStateAt p1.operationStates index (fun _ => ⟨true, none⟩) }

/-- `project.rs` lines 155-164: `attach_toolpath` clears `dirty` and stores
the artifact; errors when the slot is still missing. -/
def attachToolpath (p : Project) (index : ℕ) (artifact : ToolpathArtifact) :
    Project × Except String Unit :=
  let p1 := ensureOperationState p index
  match p1.operationStates[index]? with
  | some _ =>
      ({ p1 with operationStates := p1.operationStates.set index ⟨false, some artifact⟩ },
        Except.ok ())
  | none => (p1, Except.error ("invalid operation index " ++ toString index))

/-- `project.rs` lines 95-103: `update_operation` replaces the operation and
marks it dirty; errors on an invalid index. -/
def updateOperation (p : Project) (index : ℕ) (operation : Operation) :
    Except String Project :=
  match p.operations[index]? with
  | none => Except.error ("invalid operation index " ++ toString index)
  | some _ =>
      Except.ok (markOperationDirty { p with operations := p.operations.set index operation }
        index)

/-- `project.rs` lines 179-183: `toolpath_for_operation`. -/
def toolpathForOperation (p : Project) (index : ℕ) : Option ToolpathArtifact :=
  (p.operationStates[index]?).bind (fun state => state.artifact)

/-- `project.rs` lines 125-138: the observable status of an operation, `Dirty`
when the state slot is missing. -/
def operationStatus (p : Project) (index : ℕ) : ToolpathStatus :=
  ((p.operationStates[index]?).map OperationState.status).getD ToolpathStatus.dirty

/-- The two observables of an operation slot are unchanged by
`ensure_operation_state`: slots created by the extension are fresh dirty
slots, which observe exactly like missing slots. -/
theorem ensure_observables (p : Project) (index j : ℕ) :
    toolpathForOperation (ensureOperationState p index) j = toolpathForOperation p j ∧
    operationStatus (ensureOperationState p index) j = operationStatus p j := by
  unfold ensureOperationState ensureOperationStatesLen toolpathForOperation operationStatus
  split_ifs with h1 h2
  · simp only
    by_cases hj : j < p.operationStates.length
    · constructor <;> rw [List.getElem?_append] <;> simp [hj]
    · have hnone : p.operationStates[j]? = none := by
        rw [List.getElem?_eq_none_iff]
        omega
      rw [List.getElem?_append_right (by omega), List.getElem?_replicate, hnone]
      split_ifs with hlt
      · simp [OperationState.dirtyState, OperationState.status]
      · simp
  · exact ⟨rfl, rfl⟩
  · exact ⟨rfl, rfl⟩

/-- Claim C10: `mark_operation_dirty(i)` drops operation `i`'s cached artifact
(it becomes `None`) and leaves it observably `Dirty`, while every other
operation's observable state (artifact and status) is unchanged; and
`update_operation(i, op)`, on success, replaces the operation and performs
exactly that marking. -/
theorem c10_mark_dirty_drops_artifact (p : Project) (index : ℕ) (op : Operation) :
    toolpathForOperation (markOperationDirty p index) index = none ∧
    operationStatus (markOperationDirty p index) index = ToolpathStatus.dirty ∧
    (∀ j, j ≠ index →
      toolpathForOperation (markOperationDirty p index) j = toolpathForOperation p j ∧
      operationStatus (markOperationDirty p index) j = operationStatus p j) ∧
    (∀ p', updateOperation p index op = Except.ok p' →
      p' = markOperationDirty { p with operations := p.operations.set index op } index) := by
  refine ⟨?_, ?_, ?_, ?_⟩
  · unfold markOperationDirty modifyStateAt toolpathForOperation
    dsimp only
    split_ifs with h
    · rw [List.getElem?_set_self h]
      rfl
    · have hnone : (ensureOperationState p index).operationStates[index]? = none := by
        rw [List.getElem?_eq_none_iff]
        omega
      simp [hnone]
  · unfold markOperationDirty modifyStateAt operationStatus
    dsimp only
    split_ifs with h
    · rw [List.getElem?_set_self h]
      rfl
    · have hnone : (ensureOperationState p index).operationStates[index]? = none := by
        rw [List.getElem?_eq_none_iff]
        omega
      simp [hnone]
  · intro j hj
    have hens := ensure_observables p index j
    unfold markOperationDirty modifyStateAt
    dsimp only
    split_ifs with h
    · constructor
      · rw [← hens.1]
        unfold toolpathForOperation
        simp only
        rw [List.getElem?_set_ne (Ne.symm hj)]
      · rw [← hens.2]
        unfold operationStatus
        simp only
        rw [List.getElem?_set_ne (Ne.symm hj)]
    · exact hens
  · intro p' hp'
    unfold updateOperation at hp'
    cases ho : p.operations[index]? with
    | none => rw [ho] at hp'; exact absurd hp' (by simp)
    | some opOld =>
        rw [ho] at hp'
        cases hp'
        rfl

/-- A cached artifact for the C10 witness project. -/
def artifactW : ToolpathArtifact := ⟨0, ⟨[[(1, 1, -2)]]⟩, [], 42, [], true⟩

/-- A second cached artifact for the C10 witness project. -/
def artifactW2 : ToolpathArtifact := ⟨1, ⟨[[(3, 3, -1)]]⟩, [], 43, [], true⟩

/-- A concrete two-operation project whose operations both carry artifacts. -/
def projW : Project :=
  ⟨[Operation.profile 5 CutSide.outside 0 (OperationTarget.curves [0]),
    Operation.profile 2 CutSide.inside 1 (OperationTarget.curves [2])],
   [⟨false, some artifactW⟩, ⟨false, some artifactW2⟩]⟩

/-- The replacement operation used by the C10 witness. -/
def opReplW : Operation := Operation.pocket 3 0 (OperationTarget.curves [1])

/-- Witness for C10 at a concrete project: marking operation 0 dirty drops its
artifact, operation 1 is untouched, and `update_operation` performs the same
marking. -/
theorem c10_witness :
    toolpathForOperation (markOperationDirty projW 0) 0 = none ∧
    operationStatus (markOperationDirty projW 0) 0 = ToolpathStatus.dirty ∧
    (toolpathForOperation (markOperationDirty projW 0) 1 = toolpathForOperation projW 1 ∧
      operationStatus (markOperationDirty projW 0) 1 = operationStatus projW 1) ∧
    (Project.mk
        [opReplW, Operation.profile 2 CutSide.inside 1 (OperationTarget.curves [2])]
        [⟨true, none⟩, ⟨false, some artifactW2⟩]
      = markOperationDirty { projW with operations := projW.operations.set 0 opReplW } 0) :=
  have h := c10_mark_dirty_drops_artifact projW 0 opReplW
  ⟨h.1, h.2.1, h.2.2.1 1 (by decide),
    h.2.2.2
      ⟨[opReplW, Operation.profile 2 CutSide.inside 1 (OperationTarget.curves [2])],
       [⟨true, none⟩, ⟨false, some artifactW2⟩]⟩
      (by rfl)⟩

/-!
## Toolpath orchestrator (`toolpath_generation.rs`), error path

`generate_toolpaths_for_operations` iterates `0..operations.len()`, calls
`generate_toolpath_for_operation` (here an oracle `gen`, since its body spans
all three generators), attaches the artifact on success and records a report.
`gen` receives the current project, the index and the cloned operation,
mirroring the call; it never mutates the project (the Rust function takes
`&mut` but only reads).
-/

/-- `toolpath_generation.rs` lines 15-21: `ToolpathGenerationReport`. -/
structure ToolpathGenerationReport where
  operationIndex : ℕ
  status : ToolpathStatus
  warnings : List String
  error : Option String
deriving DecidableEq, Repr

/-- The type of the per-operation generation oracle standing for
`generate_toolpath_for_operation`. -/
abbrev GenOracle : Type :=
  Project → ℕ → Operation → Except String (ToolpathArtifact × List String)

/-- `toolpath_generation.rs` lines 31-62: one iteration of the loop body —
generate, then on success attach (recording an attach failure as a Dirty
report), on failure record a Dirty report with the error message. -/
def generationStep (gen : GenOracle) (p : Project) (index : ℕ) (operation : Operation) :
    Project × ToolpathGenerationReport :=
  match gen p index operation with
  | Except.ok (artifact, warnings) =>
      let status := ToolpathStatus.ready artifact.generatedAtEpochMs warnings.length
      let attached := attachToolpath p index artifact
      match attached.2 with
      | Except.error err => (attached.1, ⟨index, ToolpathStatus.dirty, [], some err⟩)
      | Except.ok _ => (attached.1, ⟨index, status, warnings, none⟩)
  | Except.error err => (p, ⟨index, ToolpathStatus.dirty, [], some err⟩)

/-- `toolpath_generation.rs` lines 30-63: the `for index in 0..len` loop,
processing `count` indices starting at `start`.  The `none` branch of
`operations[start]?` is unreachable for in-range indices (the Rust indexing
would panic); it contributes no report. -/
def generationLoop (gen : GenOracle) :
    ℕ → Project → ℕ → Project × List ToolpathGenerationReport
  | 0, p, _ => (p, [])
  | count + 1, p, start =>
      match p.operations[start]? with
      | none => (p, [])
      | some operation =>
          let step := generationStep gen p start operation
          let rest := generationLoop gen count step.1 (start + 1)
          (rest.1, step.2 :: rest.2)

/-- `toolpath_generation.rs` lines 24-66: `generate_toolpaths_for_operations`. -/
def generateToolpathsForOperations (gen : GenOracle) (p : Project) :
    Project × List ToolpathGenerationReport :=
  generationLoop gen p.operations.length p 0

/-- The concrete one-operation project of the C6 counterexample: its single
operation was previously generated successfully, so its state is clean
(`dirty = false`) and holds an artifact. -/
def projC6 : Project :=
  ⟨[Operation.profile 5 CutSide.outside 0 (OperationTarget.curves [0])],
   [⟨false, some artifactW⟩]⟩

/-- Counterexample to claim C6 as stated: the claim says a failed generation
leaves the operation's dirty flag *set*.  On a project whose operation was
previously clean, a failing generation leaves the state untouched, so the
dirty flag stays `false` — it is not set.  (The report itself is recorded as
claimed.) -/
theorem c6_counterexample :
    (generateToolpathsForOperations (fun _ _ _ => Except.error "boom") projC6).1.operationStates
        = [⟨false, some artifactW⟩] ∧
    (generateToolpathsForOperations (fun _ _ _ => Except.error "boom") projC6).2
        = [⟨0, ToolpathStatus.dirty, [], some "boom"⟩] := by
  constructor
  · rfl
  · rfl

/-- When the state vector already matches the operations list,
`ensure_operation_state` is the identity. -/
theorem ensure_eq_self_of_hlen (p : Project) (index : ℕ)
    (hlen : p.operationStates.length = p.operations.length) :
    ensureOperationState p index = p := by
  unfold ensureOperationState ensureOperationStatesLen
  split_ifs with h1 h2
  · exact absurd h2 (by omega)
  · rfl
  · rfl

/-- `attach_toolpath` on an in-range index (states in sync) sets the slot. -/
theorem attach_in_range (p : Project) (index : ℕ) (artifact : ToolpathArtifact)
    (hlen : p.operationStates.length = p.operations.length)
    (hrange : index < p.operations.length) :
    attachToolpath p index artifact
      = ({ p with operationStates := p.operationStates.set index ⟨false, some artifact⟩ },
          Except.ok ()) := by
  unfold attachToolpath
  rw [ensure_eq_self_of_hlen p index hlen]
  dsimp only
  cases hs : p.operationStates[index]? with
  | none =>
      rw [List.getElem?_eq_none_iff] at hs
      exact absurd hs (by omega)
  | some s => rfl

/-- `attach_toolpath` on an out-of-range index (states in sync) fails and
leaves the project unchanged. -/
theorem attach_out_of_range (p : Project) (index : ℕ) (artifact : ToolpathArtifact)
    (hlen : p.operationStates.length = p.operations.length)
    (hrange : p.operations.length ≤ index) :
    attachToolpath p index artifact
      = (p, Except.error ("invalid operation index " ++ toString index)) := by
  unfold attachToolpath
  rw [ensure_eq_self_of_hlen p index hlen]
  dsimp only
  cases hs : p.operationStates[index]? with
  | none => rfl
  | some s =>
      have : index < p.operationStates.length := by
        by_contra hcon
        rw [List.getElem?_eq_none_iff.mpr (by omega)] at hs
        exact absurd hs (by simp)
      exact absurd this (by omega)

/-- A failing generation makes the step record a Dirty report and leave the
project untouched. -/
theorem generationStep_error (gen : GenOracle) (p : Project) (index : ℕ)
    (operation : Operation) (err : String)
    (hgen : gen p index operation = Except.error err) :
    generationStep gen p index operation
      = (p, ⟨index, ToolpathStatus.dirty, [], some err⟩) := by
  unfold generationStep
  rw [hgen]

/-- Whatever the oracle does, one step preserves the operations list, the
states length, and every state slot other than the processed index. -/
theorem generationStep_preserves (gen : GenOracle) (p : Project) (index : ℕ)
    (operation : Operation)
    (hlen : p.operationStates.length = p.operations.length) :
    (generationStep gen p index operation).1.operations = p.operations ∧
    (generationStep gen p index operation).1.operationStates.length
      = p.operationStates.length ∧
    ∀ j, j ≠ index →
      (generationStep gen p index operation).1.operationStates[j]?
        = p.operationStates[j]? := by
  unfold generationStep
  cases hgen : gen p index operation with
  | error err => exact ⟨rfl, rfl, fun _ _ => rfl⟩
  | ok pair =>
      obtain ⟨artifact, warnings⟩ := pair
      dsimp only
      by_cases hrange : index < p.operations.length
      · rw [attach_in_range p index artifact hlen hrange]
        refine ⟨rfl, by simp, ?_⟩
        intro j hj
        simp only
        rw [List.getElem?_set_ne (Ne.symm hj)]
      · rw [attach_out_of_range p index artifact hlen (by omega)]
        exact ⟨rfl, rfl, fun _ _ => rfl⟩

/-- Unfolding one loop iteration at an in-range index. -/
theorem generationLoop_succ (gen : GenOracle) (p : Project) (start count : ℕ)
    (operation : Operation) (hop : p.operations[start]? = some operation) :
    generationLoop gen (count + 1) p start
      = ((generationLoop gen count (generationStep gen p start operation).1 (start + 1)).1,
          (generationStep gen p start operation).2 ::
            (generationLoop gen count (generationStep gen p start operation).1 (start + 1)).2) := by
  conv_lhs => rw [generationLoop]
  rw [hop]

/-- Iterations that never process index `i` preserve the operations list, the
states length, and state slot `i`. -/
theorem generationLoop_frame (gen : GenOracle) (i : ℕ) :
    ∀ (count start : ℕ) (p : Project),
      p.operationStates.length = p.operations.length →
      (∀ k, start ≤ k → k < start + count → k ≠ i) →
      (generationLoop gen count p start).1.operations = p.operations ∧
      (generationLoop gen count p start).1.operationStates.length
        = p.operationStates.length ∧
      (generationLoop gen count p start).1.operationStates[i]?
        = p.operationStates[i]? := by
  intro count
  induction count with
  | zero => intro start p _ _; exact ⟨rfl, rfl, rfl⟩
  | succ count ih =>
      intro start p hlen hk
      cases hop : p.operations[start]? with
      | none =>
          unfold generationLoop
          rw [hop]
          exact ⟨rfl, rfl, rfl⟩
      | some operation =>
          rw [generationLoop_succ gen p start count operation hop]
          have hstep := generationStep_preserves gen p start operation hlen
          have hlen1 : (generationStep gen p start operation).1.operationStates.length
              = (generationStep gen p start operation).1.operations.length := by
            rw [hstep.1, hstep.2.1, hlen]
          have hrest := ih (start + 1) (generationStep gen p start operation).1 hlen1
            (fun k h1 h2 => hk k (by omega) (by omega))
          refine ⟨?_, ?_, ?_⟩
          · rw [hrest.1, hstep.1]
          · rw [hrest.2.1, hstep.2.1]
          · rw [hrest.2.2, hstep.2.2 i (by
              have := hk start (by omega) (by omega)
              omega)]

/-- Core of C6: when the oracle fails at index `i` (with message `err`), the
loop leaves state slot `i` untouched and its `i - start`-th report is the
Dirty report with that error. -/
theorem generationLoop_failed_op (gen : GenOracle) (err : String) (i : ℕ) :
    ∀ (count start : ℕ) (p : Project),
      p.operationStates.length = p.operations.length →
      start + count ≤ p.operations.length →
      start ≤ i → i < start + count →
      (∀ (q : Project) (operation : Operation), gen q i operation = Except.error err) →
      (generationLoop gen count p start).1.operationStates[i]?
        = p.operationStates[i]? ∧
      (generationLoop gen count p start).2[i - start]?
        = some ⟨i, ToolpathStatus.dirty, [], some err⟩ := by
  intro count
  induction count with
  | zero => intro start p _ _ h1 h2 _; omega
  | succ count ih =>
      intro start p hlen hcount hsi his hfail
      have hstart : start < p.operations.length := by omega
      cases hop : p.operations[start]? with
      | none =>
          rw [List.getElem?_eq_none_iff] at hop
          omega
      | some operation =>
          rw [generationLoop_succ gen p start count operation hop]
          by_cases hsi2 : start = i
          · subst hsi2
            rw [generationStep_error gen p start operation err (hfail p operation)]
            have hframe := generationLoop_frame gen start count (start + 1) p hlen
              (fun k h1 h2 => by omega)
            refine ⟨hframe.2.2, ?_⟩
            simp
          · have hstep := generationStep_preserves gen p start operation hlen
            have hlen1 : (generationStep gen p start operation).1.operationStates.length
                = (generationStep gen p start operation).1.operations.length := by
              rw [hstep.1, hstep.2.1, hlen]
            have hrest := ih (start + 1) (generationStep gen p start operation).1 hlen1
              (by rw [hstep.1]; omega) (by omega) (by omega) hfail
            refine ⟨?_, ?_⟩
            · rw [hrest.1, hstep.2.2 i (by omega)]
            · have hidx : i - start = (i - (start + 1)) + 1 := by omega
              rw [hidx, List.getElem?_cons_succ, hrest.2]

/-- Claim C6 as amended: if generation for operation `i` fails,
`generate_toolpaths_for_operations` leaves operation `i`'s state exactly as it
was — the dirty flag keeps its prior value (so it stays set if it was set, but
is not newly set when the operation was clean) and the stored artifact is
untouched — and the `i`-th report carries that operation index, `Dirty`
status, and the error message. -/
theorem c6_amended_failed_op (gen : GenOracle) (p : Project) (i : ℕ) (err : String)
    (hlen : p.operationStates.length = p.operations.length)
    (hi : i < p.operations.length)
    (hfail : ∀ (q : Project) (operation : Operation), gen q i operation = Except.error err) :
    (generateToolpathsForOperations gen p).1.operationStates[i]?
      = p.operationStates[i]? ∧
    (generateToolpathsForOperations gen p).2[i]?
      = some ⟨i, ToolpathStatus.dirty, [], some err⟩ := by
  have h := generationLoop_failed_op gen err i p.operations.length 0 p hlen
    (by omega) (by omega) (by omega) hfail
  unfold generateToolpathsForOperations
  simpa using h

/-- Witness for the amended C6 at the concrete clean-state project: the slot
is preserved and the report records the failure. -/
theorem c6_amended_witness :
    (generateToolpathsForOperations (fun _ _ _ => Except.error "boom") projC6).1.operationStates[0]?
        = projC6.operationStates[0]? ∧
    (generateToolpathsForOperations (fun _ _ _ => Except.error "boom") projC6).2[0]?
        = some ⟨0, ToolpathStatus.dirty, [], some "boom"⟩ :=
  c6_amended_failed_op (fun _ _ _ => Except.error "boom") projC6 0 "boom"
    (by rfl) (by decide) (fun _ _ => rfl)

/-!
## SVG import into the registry (`geometry/mod.rs`, `import_svg`)

`ShapeRegistry` stores its entities in `std::collections::HashMap`s, whose
iteration order is unspecified.  The maps are embedded as association lists in
iteration order, and each `HashMap::insert` is an oracle placing the new pair
somewhere in that order.  `import_svg` records the pre-import entry counts,
inserts one curve and one shape per visible non-empty path (lines 187-252),
and then computes the batch as `keys().skip(initial_count)` (lines 193-204) —
the object of claim C7.  The SVG file reading and usvg parsing are external;
the traversal's yield is modelled as the list of visible non-empty paths with
their freshly generated IDs, payloads and labels.
-/

/-- Opaque stand-in for a kurbo `BezPath` payload. -/
abbrev BezData : Type := ℕ

/-- `shape.rs`: the fields of a `Shape` that the import creates (`kind =
Curve(curve_id)`, label from the node id or synthetic). -/
structure ShapeRec where
  id : ℕ
  label : String
  curveRef : ℕ
deriving DecidableEq, Repr

/-- The registry's two maps, as association lists in iteration order. -/
structure RegistryModel where
  shapes : List (ℕ × ShapeRec)
  curves : List (ℕ × BezData)
deriving DecidableEq, Repr

/-- One visible non-empty path yielded by the usvg traversal, with the fresh
IDs `create_bezpath`/`add_shape` will assign. -/
structure SvgPathItem where
  curveId : ℕ
  shapeId : ℕ
  payload : BezData
  label : String
deriving DecidableEq, Repr

/-- A `HashMap::insert`: places the new pair somewhere in iteration order. -/
abbrev InsertOracle (α : Type) : Type := List (ℕ × α) → ℕ × α → List (ℕ × α)

/-- `geometry/mod.rs` lines 214-261 (`import_usvg_group`): one curve and one
shape inserted per visible non-empty path, in traversal order. -/
def importUsvgGroup (insertCurve : InsertOracle BezData)
    (insertShape : InsertOracle ShapeRec)
    (items : List SvgPathItem) (reg : RegistryModel) : RegistryModel :=
  items.foldl
    (fun reg item =>
      { shapes := insertShape reg.shapes
          (item.shapeId, ⟨item.shapeId, item.label, item.curveId⟩),
        curves := insertCurve reg.curves (item.curveId, item.payload) })
    reg

/-- `geometry/mod.rs` lines 38-43: `ImportedBatch`. -/
structure ImportedBatchModel where
  shapeIds : List ℕ
  curveIds : List ℕ
  regionIds : List ℕ
deriving DecidableEq, Repr

/-- `geometry/mod.rs` lines 173-211: `import_svg` — remember the pre-import
counts, run the traversal, then diff by `keys().skip(initial_count)`. -/
def importSvgModel (insertCurve : InsertOracle BezData)
    (insertShape : InsertOracle ShapeRec)
    (items : List SvgPathItem) (reg : RegistryModel) :
    RegistryModel × ImportedBatchModel :=
  let initialShapeCount := reg.shapes.length
  let initialCurveCount := reg.curves.length
  let reg1 := importUsvgGroup insertCurve insertShape items reg
  (reg1,
    ⟨(reg1.shapes.map Prod.fst).drop initialShapeCount,
     (reg1.curves.map Prod.fst).drop initialCurveCount,
     []⟩)

/-- The pre-populated registry of the C7 counterexample: one shape (id 100)
referencing one curve (id 200). -/
def regPreC7 : RegistryModel := ⟨[(100, ⟨100, "old", 200⟩)], [(200, 0)]⟩

/-- Counterexample to claim C7 as stated: when the `HashMap` iteration order
happens to place the newly inserted entry before the pre-existing one (a
legal order for `std::collections::HashMap`), `keys().skip(initial_count)`
returns the pre-existing IDs (100, 200) instead of the new ones (2, 1): the
batch misses every new ID and contains only pre-existing ones, even though
the new shape was inserted. -/
theorem c7_counterexample :
    (importSvgModel (fun l kv => kv :: l) (fun l kv => kv :: l)
        [⟨1, 2, 7, "Path 1"⟩] regPreC7).2.shapeIds = [100] ∧
    (importSvgModel (fun l kv => kv :: l) (fun l kv => kv :: l)
        [⟨1, 2, 7, "Path 1"⟩] regPreC7).2.curveIds = [200] ∧
    100 ∈ regPreC7.shapes.map Prod.fst ∧
    (2 : ℕ) ∉ (importSvgModel (fun l kv => kv :: l) (fun l kv => kv :: l)
        [⟨1, 2, 7, "Path 1"⟩] regPreC7).2.shapeIds ∧
    ((2 : ℕ), (⟨2, "Path 1", 1⟩ : ShapeRec))
      ∈ (importSvgModel (fun l kv => kv :: l) (fun l kv => kv :: l)
          [⟨1, 2, 7, "Path 1"⟩] regPreC7).1.shapes := by
  refine ⟨rfl, rfl, by decide, by decide, by decide⟩

/-- Appending insertions keep old entries in place and new ones at the end. -/
theorem importUsvgGroup_append (items : List SvgPathItem) :
    ∀ reg : RegistryModel,
      importUsvgGroup (fun l kv => l ++ [kv]) (fun l kv => l ++ [kv]) items reg
        = ⟨reg.shapes ++ items.map (fun item =>
              (item.shapeId, ⟨item.shapeId, item.label, item.curveId⟩)),
           reg.curves ++ items.map (fun item => (item.curveId, item.payload))⟩ := by
  induction items with
  | nil => intro reg; simp [importUsvgGroup]
  | cons item rest ih =>
      intro reg
      unfold importUsvgGroup
      rw [List.foldl_cons]
      have := ih ⟨reg.shapes ++ [(item.shapeId, ⟨item.shapeId, item.label, item.curveId⟩)],
        reg.curves ++ [(item.curveId, item.payload)]⟩
      unfold importUsvgGroup at this
      rw [this]
      simp

/-- Claim C7 as amended: the returned batch is the maps' key sequences after
skipping the pre-import counts, in iteration order.  When every insertion
appends (i.e. iteration enumerates all pre-existing keys before the new
ones), the batch is exactly the newly inserted shape and curve IDs, in
insertion order, with no pre-existing ID; an adverse hash order can break
this, as the counterexample shows. -/
theorem c7_amended_append_order (items : List SvgPathItem) (reg : RegistryModel) :
    (importSvgModel (fun l kv => l ++ [kv]) (fun l kv => l ++ [kv]) items reg).2
      = ⟨items.map SvgPathItem.shapeId, items.map SvgPathItem.curveId, []⟩ := by
  unfold importSvgModel
  rw [importUsvgGroup_append items reg]
  simp [List.map_map, Function.comp]

/-!
## V-carve generator (`vcarve.rs`)

The straight skeleton (geo_buffer), the Euclidean distance to a ring (geo) and
the polyline offset (`geometry/offset.rs`, itself a wrapper over
cavalier_contours) are oracles; `tan(angle.to_radians() / 2)` is transcendental
and enters as the parameter `tanA`.  Everything else — the collinearity
simplification, the geo-polygon construction and the shallow/deep walk along
skeleton segments — is repository code and is embedded directly over `ℚ`.
-/

/-- The rational value of `f64::EPSILON` (2⁻⁵²). -/
def f64EPSILON : ℚ := 1 / 2 ^ 52

/-- The rational value of `f64::MAX` ((2⁵³ − 1) · 2⁹⁷¹). -/
def f64MAX : ℚ := (2 ^ 53 - 1) * 2 ^ 971

/-- `vcarve.rs` line 175: the 1 µm collinearity tolerance. -/
def carveTol : ℚ := 1 / 1000

/-- `vcarve.rs` lines 9-14: `CarvePolygon`. -/
structure CarvePolygon where
  outer : Path2
  holes : List Path2
deriving DecidableEq, Repr

/-- The geo crate's `Polygon`: closed exterior and interior rings, as built by
`build_geo_polygon`. -/
structure GeoPolygon where
  exterior : Path2
  interiors : List Path2
deriving DecidableEq, Repr

/-- `vcarve.rs` lines 250-264: `are_collinear` — triangle area within
tolerance and direction preserved (positive dot product). -/
def areCollinear (p1 p2 p3 : Point2) (tol : ℚ) : Bool :=
  let area := |p1.1 * (p2.2 - p3.2) + p2.1 * (p3.2 - p1.2) + p3.1 * (p1.2 - p2.2)| * (1 / 2)
  if area > tol then false
  else
    let dot := (p2.1 - p1.1) * (p3.1 - p2.1) + (p2.2 - p1.2) * (p3.2 - p2.2)
    decide (dot > 0)

/-- `vcarve.rs` lines 199-211: the inner `while` loop — repeatedly remove the
middle of the last three pushed vertices while they are collinear.  The list
is kept reversed (head = most recently pushed); the fuel is the list length,
which bounds the number of removals. -/
def collapseTail : ℕ → List Point2 → List Point2
  | 0, rev => rev
  | fuel + 1, rev =>
      match rev with
      | p3 :: p2 :: p1 :: rest =>
          if areCollinear p1 p2 p3 carveTol then collapseTail fuel (p3 :: p1 :: rest)
          else rev
      | _ => rev

/-- `vcarve.rs` lines 214-222: drop the duplicate closing vertex. -/
def dropClosingDup (l : Path2) : Path2 :=
  if l.length ≥ 3 then
    match l.head?, l.getLast? with
    | some first, some last =>
        if |last.1 - first.1| < f64EPSILON ∧ |last.2 - first.2| < f64EPSILON then
          l.dropLast
        else l
    | _, _ => l
  else l

/-- `vcarve.rs` lines 225-232: remove the first vertex when last, first and
second are collinear (wrap-around collinearity). -/
def dropClosureCollinear (l : Path2) : Path2 :=
  if l.length ≥ 3 then
    match l, l.getLast? with
    | p2 :: p3 :: _, some p1 =>
        if areCollinear p1 p2 p3 carveTol then l.tail else l
    | _, _ => l
  else l

/-- `vcarve.rs` lines 234-245: re-append the first vertex when the input ring
was closed but the simplified one is not. -/
def recloseIfInputClosed (points simplified : Path2) : Path2 :=
  match points.head?, points.getLast? with
  | some first, some last =>
      if |first.1 - last.1| < f64EPSILON ∧ |first.2 - last.2| < f64EPSILON then
        match simplified.head?, simplified.getLast? with
        | some sFirst, some sLast =>
            if |sFirst.1 - sLast.1| > f64EPSILON ∨ |sFirst.2 - sLast.2| > f64EPSILON then
              simplified ++ [sFirst]
            else simplified
        | _, _ => simplified
      else simplified
  | _, _ => simplified

/-- `vcarve.rs` lines 177-248: `simplify_ring`. -/
def simplifyRing (points : Path2) : Path2 :=
  if points.length < 3 then points
  else
    match points with
    | [] => points
    | p0 :: rest =>
        let rev := rest.foldl
          (fun rev pCurr => collapseTail (pCurr :: rev).length (pCurr :: rev)) [p0]
        recloseIfInputClosed points (dropClosureCollinear (dropClosingDup rev.reverse))

/-- `vcarve.rs` lines 266-269: simplify outer ring and holes. -/
def simplifyCarvePolygon (poly : CarvePolygon) : CarvePolygon :=
  ⟨simplifyRing poly.outer, poly.holes.map simplifyRing⟩

/-- `vcarve.rs` lines 272-280: `interpolate`. -/
def interpolateQ (p1 : Point2) (d1 : ℚ) (p2 : Point2) (d2 : ℚ) (limit : ℚ) : Point2 :=
  if |d2 - d1| < f64EPSILON then p1
  else
    let t := (limit - d1) / (d2 - d1)
    (p1.1 + t * (p2.1 - p1.1), p1.2 + t * (p2.2 - p1.2))

/-- `vcarve.rs` lines 283-294: `to_line_string` — at least three points,
closed by repeating the first point when needed. -/
def toLineString (points : Path2) : Except String Path2 :=
  if points.length < 3 then
    Except.error "Polygon loop must contain at least three points"
  else
    match points.head?, points.getLast? with
    | some first, some last =>
        if first ≠ last then Except.ok (points ++ [first]) else Except.ok points
    | _, _ => Except.ok points

/-- `vcarve.rs` lines 282-303: `build_geo_polygon`. -/
def buildGeoPolygon (poly : CarvePolygon) : Except String GeoPolygon :=
  match toLineString poly.outer with
  | Except.error e => Except.error e
  | Except.ok exterior =>
      match poly.holes.mapM toLineString with
      | Except.error e => Except.error e
      | Except.ok interiors => Except.ok ⟨exterior, interiors⟩

/-- The straight-skeleton oracle (`geo_buffer::skeleton_of_polygon_to_linestring`). -/
abbrev SkeletonOracle : Type := GeoPolygon → List Path2

/-- The boundary-distance oracle (`distance_to_polygon_boundary`, built on the
geo crate's `euclidean_distance`). -/
abbrev DistOracle : Type := Point2 → GeoPolygon → ℚ

/-- The polyline-offset oracle (`geometry/offset.rs::offset_polygon`, a
wrapper over cavalier_contours). -/
abbrev OffsetOracle : Type := List CarvePolygon → ℚ → Except String (List CarvePolygon)

/-- State of the walk along one skeleton segment (`vcarve.rs` lines 98-99):
accumulated paths, the open path, and the previous point with its distance. -/
structure WalkState where
  paths : List Path3
  currentPath : Path3
  prev : Option (Point2 × ℚ)
deriving DecidableEq, Repr

/-- `vcarve.rs` lines 101-154: process one skeleton-segment coordinate. -/
def walkStep (distOracle : DistOracle) (gpoly : GeoPolygon)
    (tanA limitDist maxDepthValue : ℚ) (st : WalkState) (coord : Point2) : WalkState :=
  let distance := distOracle coord gpoly
  let isShallow := distance ≤ limitDist
  match st.prev with
  | some (prevP, prevD) =>
      let wasShallow := prevD ≤ limitDist
      if wasShallow ∧ isShallow then
        let cp :=
          if st.currentPath.isEmpty then [(prevP.1, prevP.2, -(prevD / tanA))]
          else st.currentPath
        ⟨st.paths, cp ++ [(coord.1, coord.2, -(distance / tanA))], some (coord, distance)⟩
      else if wasShallow ∧ ¬ isShallow then
        let ip := interpolateQ prevP prevD coord distance limitDist
        let cp :=
          if st.currentPath.isEmpty then [(prevP.1, prevP.2, -(prevD / tanA))]
          else st.currentPath
        ⟨st.paths ++ [cp ++ [(ip.1, ip.2, -maxDepthValue)]], [], some (coord, distance)⟩
      else if ¬ wasShallow ∧ isShallow then
        let ip := interpolateQ prevP prevD coord distance limitDist
        ⟨st.paths,
          st.currentPath ++
            [(ip.1, ip.2, -maxDepthValue), (coord.1, coord.2, -(distance / tanA))],
          some (coord, distance)⟩
      else ⟨st.paths, st.currentPath, some (coord, distance)⟩
  | none => ⟨st.paths, st.currentPath, some (coord, distance)⟩

/-- `vcarve.rs` lines 93-159: walk one segment, flushing the open path at the
end. -/
def walkSegment (distOracle : DistOracle) (gpoly : GeoPolygon)
    (tanA limitDist maxDepthValue : ℚ) (coords : List Point2) : List Path3 :=
  let final := coords.foldl (walkStep distOracle gpoly tanA limitDist maxDepthValue)
    ⟨[], [], none⟩
  if final.currentPath.isEmpty then final.paths else final.paths ++ [final.currentPath]

/-- `vcarve.rs` lines 52-78: one wall ring at `z = -depth`, closed, kept only
with at least two vertices. -/
def wallPathRing (depth : ℚ) (ring : Path2) : List Path3 :=
  let p := closeRing3d (-depth) ring
  if 2 ≤ p.length then [p] else []

/-- `vcarve.rs` lines 49-81: flat-bottom wall paths for the inner-offset
polygons, outer ring then holes, per polygon. -/
def wallPaths (depth : ℚ) (polys : List CarvePolygon) : List Path3 :=
  polys.flatMap
    (fun poly => wallPathRing depth poly.outer ++ poly.holes.flatMap (wallPathRing depth))

/-- `vcarve.rs` lines 84-160: the skeleton passes, polygon by polygon —
simplify, build the geo polygon (propagating its error with context), skip
segments with fewer than two coordinates, walk the rest. -/
def vcarveSkeletonPaths (skeletonOracle : SkeletonOracle) (distOracle : DistOracle)
    (tanA limitDist maxDepthValue : ℚ) :
    List CarvePolygon → Except String (List Path3)
  | [] => Except.ok []
  | poly :: rest =>
      match buildGeoPolygon (simplifyCarvePolygon poly) with
      | Except.error e =>
          Except.error ("Failed to convert polygon for straight-skeleton computation: " ++ e)
      | Except.ok gpoly =>
          let segPaths := (skeletonOracle gpoly).flatMap
            (fun segment =>
              if segment.length < 2 then []
              else walkSegment distOracle gpoly tanA limitDist maxDepthValue segment)
          match vcarveSkeletonPaths skeletonOracle distOracle tanA limitDist maxDepthValue rest with
          | Except.error e => Except.error e
          | Except.ok restPaths => Except.ok (segPaths ++ restPaths)

/-- `vcarve.rs` lines 49-81, outer structure: the flat-bottom wall paths when
the inner offset succeeds, nothing when it fails (`if let Ok(...)`). -/
def vcarveWallPaths (offsetOracle : OffsetOracle) (polygons : List CarvePolygon)
    (depth limitDist : ℚ) : List Path3 :=
  match offsetOracle polygons limitDist with
  | Except.ok innerPolys => wallPaths depth innerPolys
  | Except.error _ => []

/-- `vcarve.rs` lines 17-169: `generate_vcarve_toolpath`.  `tanA` stands for
`tan(angle_degrees.to_radians() / 2)`; the `f64::MAX` defaults of lines 38-44
are the exact rational value of that constant. -/
def generateVcarveToolpath (offsetOracle : OffsetOracle)
    (skeletonOracle : SkeletonOracle) (distOracle : DistOracle) (tanA : ℚ)
    (polygons : List CarvePolygon) (tool : Tool) (maxDepth : Option ℚ) :
    Except String Toolpath :=
  match tool.toolType with
  | ToolType.vbit _ =>
      if polygons.isEmpty then Except.error "V-carve requires at least one polygon target"
      else
        let maxDepthValue := maxDepth.getD f64MAX
        let limitDist :=
          match maxDepth with
          | some d => d * tanA
          | none => f64MAX
        let wall : List Path3 :=
          match maxDepth with
          | some depth => vcarveWallPaths offsetOracle polygons depth limitDist
          | none => []
        match vcarveSkeletonPaths skeletonOracle distOracle tanA limitDist maxDepthValue
            polygons with
        | Except.error e => Except.error e
        | Except.ok skel =>
            if (wall ++ skel).isEmpty then
              Except.error
                "Straight skeleton produced no toolpaths. Ensure shapes are valid closed polygons."
            else Except.ok ⟨wall ++ skel⟩
  | _ => Except.error "V-carve requires a V-bit tool, but tool type is not a V-bit"


/-- Shallow vertices respect the depth bound: if `d ≤ D·tanA` then
`-(D + 0.001) ≤ -(d / tanA)`. -/
theorem zbound_of_shallow (tanA D d : ℚ) (htan : 0 < tanA) (hd : d ≤ D * tanA) :
    -(D + 1 / 1000) ≤ -(d / tanA) := by
  have h1 : d / tanA ≤ D := by
    rw [div_le_iff₀ htan]
    linarith [mul_comm D tanA]
  linarith

/-- The flat-bottom depth respects the bound. -/
theorem zbound_of_maxdepth (D : ℚ) : -(D + 1 / 1000) ≤ -D := by
  have h : (0 : ℚ) ≤ 1 / 1000 := by norm_num
  linarith

/-- The walk-state invariant for claim C3: every recorded Z is at least
`-(D + 0.001)`. -/
def stateZOk (D : ℚ) (st : WalkState) : Prop :=
  (∀ p ∈ st.paths, ∀ v ∈ p, -(D + 1 / 1000) ≤ v.2.2) ∧
  (∀ v ∈ st.currentPath, -(D + 1 / 1000) ≤ v.2.2)

/-- One walk step preserves the depth-bound invariant when the limit distance
is `D·tanA` and the flat-bottom depth is `D`. -/
theorem walkStep_zok (distOracle : DistOracle) (gpoly : GeoPolygon) (tanA D : ℚ)
    (htan : 0 < tanA) (st : WalkState) (coord : Point2)
    (hst : stateZOk D st) :
    stateZOk D (walkStep distOracle gpoly tanA (D * tanA) D st coord) := by
  obtain ⟨hpaths, hcur⟩ := hst
  unfold walkStep
  cases hprev : st.prev with
  | none => exact ⟨hpaths, hcur⟩
  | some pair =>
      obtain ⟨prevP, prevD⟩ := pair
      dsimp only
      split_ifs with h1 h2 h3 h4 h5
      · -- shallow → shallow, empty current path
        refine ⟨hpaths, ?_⟩
        intro v hv
        simp only [List.singleton_append, List.mem_cons, List.mem_singleton,
          List.not_mem_nil, or_false] at hv
        rcases hv with rfl | rfl
        · exact zbound_of_shallow tanA D prevD htan h1.1
        · exact zbound_of_shallow tanA D (distOracle coord gpoly) htan h1.2
      · -- shallow → shallow, open current path
        refine ⟨hpaths, ?_⟩
        intro v hv
        simp only [List.mem_append, List.mem_cons, List.mem_singleton,
          List.not_mem_nil, or_false] at hv
        rcases hv with hv | rfl
        · exact hcur v hv
        · exact zbound_of_shallow tanA D (distOracle coord gpoly) htan h1.2
      · -- shallow → deep, empty current path
        refine ⟨?_, by simp⟩
        intro p hp
        simp only [List.mem_append, List.mem_cons, List.mem_singleton,
          List.not_mem_nil, or_false] at hp
        rcases hp with hp | rfl
        · exact hpaths p hp
        · intro v hv
          simp only [List.singleton_append, List.mem_cons, List.mem_singleton,
            List.not_mem_nil, or_false] at hv
          rcases hv with rfl | rfl
          · exact zbound_of_shallow tanA D prevD htan h3.1
          · exact zbound_of_maxdepth D
      · -- shallow → deep, open current path
        refine ⟨?_, by simp⟩
        intro p hp
        simp only [List.mem_append, List.mem_cons, List.mem_singleton,
          List.not_mem_nil, or_false] at hp
        rcases hp with hp | rfl
        · exact hpaths p hp
        · intro v hv
          simp only [List.mem_append, List.mem_cons, List.mem_singleton,
            List.not_mem_nil, or_false] at hv
          rcases hv with hv | rfl
          · exact hcur v hv
          · exact zbound_of_maxdepth D
      · -- deep → shallow
        refine ⟨hpaths, ?_⟩
        intro v hv
        simp only [List.mem_append, List.mem_cons, List.mem_singleton,
          List.not_mem_nil, or_false] at hv
        rcases hv with hv | rfl | rfl
        · exact hcur v hv
        · exact zbound_of_maxdepth D
        · exact zbound_of_shallow tanA D (distOracle coord gpoly) htan h5.2
      · -- deep → deep
        exact ⟨hpaths, hcur⟩

/-- The invariant survives a whole fold over segment coordinates. -/
theorem foldl_walk_zok (distOracle : DistOracle) (gpoly : GeoPolygon) (tanA D : ℚ)
    (htan : 0 < tanA) (coords : List Point2) :
    ∀ st : WalkState, stateZOk D st →
      stateZOk D (coords.foldl (walkStep distOracle gpoly tanA (D * tanA) D) st) := by
  induction coords with
  | nil => intro st hst; exact hst
  | cons coord rest ih =>
      intro st hst
      rw [List.foldl_cons]
      exact ih _ (walkStep_zok distOracle gpoly tanA D htan st coord hst)

/-- Every vertex produced by walking one skeleton segment respects the depth
bound. -/
theorem walkSegment_zok (distOracle : DistOracle) (gpoly : GeoPolygon) (tanA D : ℚ)
    (htan : 0 < tanA) (coords : List Point2) :
    ∀ p ∈ walkSegment distOracle gpoly tanA (D * tanA) D coords,
      ∀ v ∈ p, -(D + 1 / 1000) ≤ v.2.2 := by
  have hfinal := foldl_walk_zok distOracle gpoly tanA D htan coords ⟨[], [], none⟩
    ⟨by simp, by simp⟩
  unfold walkSegment
  dsimp only
  split_ifs with hemp
  · exact hfinal.1
  · intro p hp
    simp only [List.mem_append, List.mem_singleton] at hp
    rcases hp with hp | hp
    · exact hfinal.1 p hp
    · subst hp
      exact hfinal.2

/-- Every vertex of a wall path sits at exactly `-D`, hence within the bound. -/
theorem wallPaths_zok (D : ℚ) (polys : List CarvePolygon) :
    ∀ p ∈ wallPaths D polys, ∀ v ∈ p, -(D + 1 / 1000) ≤ v.2.2 := by
  have hring : ∀ ring : Path2, ∀ p ∈ wallPathRing D ring, ∀ v ∈ p,
      -(D + 1 / 1000) ≤ v.2.2 := by
    intro ring p hp v hv
    unfold wallPathRing at hp
    dsimp only at hp
    split_ifs at hp with hlen
    · simp only [List.mem_singleton] at hp
      subst hp
      have hmem := mem_of_mem_closeIfOpen _ _ hv
      simp only [List.mem_map] at hmem
      obtain ⟨w, _, hw⟩ := hmem
      rw [← hw]
      exact zbound_of_maxdepth D
    · simp at hp
  intro p hp
  unfold wallPaths at hp
  simp only [List.mem_flatMap] at hp
  obtain ⟨poly, _, hp⟩ := hp
  rcases List.mem_append.mp hp with hp | hp
  · exact hring poly.outer p hp
  · simp only [List.mem_flatMap] at hp
    obtain ⟨hole, _, hp⟩ := hp
    exact hring hole p hp

/-- The wall paths of the inner offset respect the bound whatever the offset
oracle returns. -/
theorem vcarveWallPaths_zok (offsetOracle : OffsetOracle)
    (polygons : List CarvePolygon) (D limitDist : ℚ) :
    ∀ p ∈ vcarveWallPaths offsetOracle polygons D limitDist, ∀ v ∈ p,
      -(D + 1 / 1000) ≤ v.2.2 := by
  intro p hp
  unfold vcarveWallPaths at hp
  cases hoff : offsetOracle polygons limitDist with
  | ok innerPolys =>
      rw [hoff] at hp
      exact wallPaths_zok D innerPolys p hp
  | error e =>
      rw [hoff] at hp
      simp at hp

/-- Every vertex of the skeleton passes respects the depth bound. -/
theorem vcarveSkeletonPaths_zok (skeletonOracle : SkeletonOracle)
    (distOracle : DistOracle) (tanA D : ℚ) (htan : 0 < tanA) :
    ∀ (polys : List CarvePolygon) (paths : List Path3),
      vcarveSkeletonPaths skeletonOracle distOracle tanA (D * tanA) D polys
        = Except.ok paths →
      ∀ p ∈ paths, ∀ v ∈ p, -(D + 1 / 1000) ≤ v.2.2 := by
  intro polys
  induction polys with
  | nil =>
      intro paths h
      cases h
      simp
  | cons poly rest ih =>
      intro paths h
      unfold vcarveSkeletonPaths at h
      cases hgeo : buildGeoPolygon (simplifyCarvePolygon poly) with
      | error e => rw [hgeo] at h; exact absurd h (by simp)
      | ok gpoly =>
          rw [hgeo] at h
          dsimp only at h
          cases hrest : vcarveSkeletonPaths skeletonOracle distOracle tanA (D * tanA) D
              rest with
          | error e => rw [hrest] at h; exact absurd h (by simp)
          | ok restPaths =>
              rw [hrest] at h
              cases h
              intro p hp
              rcases List.mem_append.mp hp with hp | hp
              · simp only [List.mem_flatMap] at hp
                obtain ⟨segment, _, hp⟩ := hp
                split_ifs at hp with hshort
                · simp at hp
                · exact walkSegment_zok distOracle gpoly tanA D htan segment p hp
              · exact ih restPaths hrest p hp

/-- Claim C3: whenever `generate_vcarve_toolpath` succeeds with
`max_depth = D`, the returned path list is non-empty and every vertex's Z
satisfies `Z ≥ -(D + 0.001)`: wall loops and crossing points sit at exactly
`-D`, shallow skeleton vertices (distance `d ≤ L = D·tanA`) at
`-d/tanA ≥ -D`, and fully deep segments are suppressed.  `tanA > 0` holds for
any V-bit with included angle in (0°, 180°). -/
theorem c3_vcarve_depth_bound (offsetOracle : OffsetOracle)
    (skeletonOracle : SkeletonOracle) (distOracle : DistOracle) (tanA : ℚ)
    (polygons : List CarvePolygon) (tool : Tool) (D : ℚ) (tp : Toolpath)
    (htan : 0 < tanA)
    (hok : generateVcarveToolpath offsetOracle skeletonOracle distOracle tanA
        polygons tool (some D) = Except.ok tp) :
    tp.paths ≠ [] ∧ ∀ p ∈ tp.paths, ∀ v ∈ p, -(D + 1 / 1000) ≤ v.2.2 := by
  unfold generateVcarveToolpath at hok
  cases htool : tool.toolType with
  | endmill d => rw [htool] at hok; exact absurd hok (by simp)
  | ballnose d => rw [htool] at hok; exact absurd hok (by simp)
  | vbit angle =>
      rw [htool] at hok
      dsimp only at hok
      rw [Option.getD_some] at hok
      by_cases hempty : polygons.isEmpty = true
      · rw [if_pos hempty] at hok
        exact absurd hok (by simp)
      · rw [if_neg hempty] at hok
        cases hskel : vcarveSkeletonPaths skeletonOracle distOracle tanA (D * tanA) D
            polygons with
        | error e => rw [hskel] at hok; exact absurd hok (by simp)
        | ok skel =>
            rw [hskel] at hok
            dsimp only at hok
            split_ifs at hok with hemp2
            have htp : tp
                = ⟨vcarveWallPaths offsetOracle polygons D (D * tanA) ++ skel⟩ := by
              cases hok
              rfl
            subst htp
            refine ⟨?_, ?_⟩
            · intro hcon
              rw [List.isEmpty_iff] at hemp2
              exact hemp2 hcon
            · intro p hp
              rcases List.mem_append.mp hp with hp | hp
              · exact vcarveWallPaths_zok offsetOracle polygons D (D * tanA) p hp
              · exact vcarveSkeletonPaths_zok skeletonOracle distOracle tanA D htan
                  polygons skel hskel p hp

/-- A 60° V-bit, as in the source's tests (`tanA = tan 30°` enters the
theorems as a parameter). -/
def vbit60 : Tool := ⟨"60deg V-bit", 0, 0, 0, ToolType.vbit 60⟩

/-- A concrete square for the V-carve witnesses. -/
def sqC3 : Path2 := [(0, 0), (10, 0), (10, 10), (0, 10), (0, 0)]

/-- Witness for C3 at a concrete run: one two-point shallow skeleton segment
at distance 1 with `tanA = 1` and `max_depth = 5` yields one path at
`z = -1 ≥ -5.001`. -/
theorem c3_witness :
    (Toolpath.mk [[(1, 1, -1), (2, 2, -1)]]).paths ≠ [] ∧
    ∀ p ∈ (Toolpath.mk [[(1, 1, -1), (2, 2, -1)]]).paths, ∀ v ∈ p,
      -((5 : ℚ) + 1 / 1000) ≤ v.2.2 :=
  c3_vcarve_depth_bound (fun _ _ => Except.ok []) (fun _ => [[(1, 1), (2, 2)]])
    (fun _ _ => 1) 1 [⟨sqC3, []⟩] vbit60 5 ⟨[[(1, 1, -1), (2, 2, -1)]]⟩
    (by norm_num) (by with_unfolding_all rfl)

/-!
## Orchestrator V-carve arm (`toolpath_generation.rs` lines 153-226)

The target resolution (`collect_vcarve_polygons`, flattening kurbo curves at
tolerance 0.25 with the imports' affine transforms) is an oracle; the tool
lookup, clearance-depth defaulting, warning, pass assembly and artifact
construction are embedded directly.  `now` stands for `current_epoch_ms()`.
-/

/-- `toolpath_generation.rs` lines 391-407 (`generate_clearance_toolpath`),
inner loop: pocket each polygon, concatenating the paths.  `none` propagates a
non-terminating pocket run. -/
def clearanceLoop (differenceOracle : PolySet → PolySet → PolySet)
    (inflateOracle : PolySet → ℚ → PolySet) (fuel : ℕ) (tool : Tool) (depth : ℚ) :
    List CarvePolygon → Option (Except String (List Path3))
  | [] => some (Except.ok [])
  | poly :: rest =>
      match generatePocketToolpath differenceOracle inflateOracle fuel poly.outer
          poly.holes tool depth with
      | none => none
      | some (Except.error e) => some (Except.error e)
      | some (Except.ok tp) =>
          match clearanceLoop differenceOracle inflateOracle fuel tool depth rest with
          | none => none
          | some (Except.error e) => some (Except.error e)
          | some (Except.ok paths) => some (Except.ok (tp.paths ++ paths))

/-- `toolpath_generation.rs` lines 391-407: `generate_clearance_toolpath`. -/
def generateClearanceToolpath (differenceOracle : PolySet → PolySet → PolySet)
    (inflateOracle : PolySet → ℚ → PolySet) (fuel : ℕ)
    (polygons : List CarvePolygon) (tool : Tool) (depth : ℚ) :
    Option (Except String Toolpath) :=
  if depth ≤ 0 then some (Except.error "Clearance depth must be positive")
  else
    match clearanceLoop differenceOracle inflateOracle fuel tool depth polygons with
    | none => none
    | some (Except.error e) => some (Except.error e)
    | some (Except.ok paths) => some (Except.ok ⟨paths⟩)

/-- The warning text of `toolpath_generation.rs` lines 177-180. -/
def clearanceWarning : String :=
  "Clearance tool selected without a max depth; defaulting to 1mm."

/-- `toolpath_generation.rs` lines 174-183: the clearance depth and the
warnings it contributes — the target depth when positive, otherwise a default
of 1 mm plus the warning. -/
def clearanceDepthAndWarnings (targetDepth : Option ℚ) : List String × ℚ :=
  match targetDepth with
  | some depth => if depth > 0 then ([], depth) else ([clearanceWarning], 1)
  | none => ([clearanceWarning], 1)

/-- The target-resolution oracle standing for `collect_vcarve_polygons`. -/
abbrev CollectOracle : Type := OperationTarget → Except String (List CarvePolygon)

/-- `toolpath_generation.rs` lines 153-226: the `Operation::VCarve` arm of
`generate_toolpath_for_operation`. -/
def generateToolpathForOperationVCarve (collectOracle : CollectOracle)
    (offsetOracle : OffsetOracle) (skeletonOracle : SkeletonOracle)
    (distOracle : DistOracle) (differenceOracle : PolySet → PolySet → PolySet)
    (inflateOracle : PolySet → ℚ → PolySet) (fuel : ℕ) (tanA : ℚ) (now : ℕ)
    (tools : ToolLibrary) (operationIndex : ℕ) (targetDepth : Option ℚ)
    (toolIndex : ℕ) (targets : OperationTarget) (clearanceToolIndex : Option ℕ) :
    Option (Except String (ToolpathArtifact × List String)) :=
  match tools.tools[toolIndex]? with
  | none => some (Except.error ("Tool #" ++ toString toolIndex ++ " not found"))
  | some tool =>
      match collectOracle targets with
      | Except.error e => some (Except.error e)
      | Except.ok carvePolygons =>
          match clearanceToolIndex with
          | some clearanceIndex =>
              match tools.tools[clearanceIndex]? with
              | none =>
                  some (Except.error ("Tool #" ++ toString clearanceIndex ++ " not found"))
              | some clearanceTool =>
                  let warnings := (clearanceDepthAndWarnings targetDepth).1
                  let clearanceDepth := (clearanceDepthAndWarnings targetDepth).2
                  match tool.toolType with
                  | ToolType.vbit _ =>
                      match offsetOracle carvePolygons (clearanceDepth * tanA) with
                      | Except.error e => some (Except.error e)
                      | Except.ok innerPolygons =>
                          match generateClearanceToolpath differenceOracle inflateOracle
                              fuel innerPolygons clearanceTool clearanceDepth with
                          | none => none
                          | some (Except.error e) => some (Except.error e)
                          | some (Except.ok clearanceToolpath) =>
                              match generateVcarveToolpath offsetOracle skeletonOracle
                                  distOracle tanA carvePolygons tool targetDepth with
                              | Except.error e => some (Except.error e)
                              | Except.ok finishToolpath =>
                                  some (Except.ok
                                    (⟨operationIndex, finishToolpath,
                                      [⟨clearanceIndex, ToolpathPassKind.clearance,
                                          clearanceToolpath⟩,
                                        ⟨toolIndex, ToolpathPassKind.finish, finishToolpath⟩],
                                      now, warnings, true⟩, warnings))
                  | _ => some (Except.error "V-carve operation requires a V-bit tool")
          | none =>
              match generateVcarveToolpath offsetOracle skeletonOracle distOracle tanA
                  carvePolygons tool targetDepth with
              | Except.error e => some (Except.error e)
              | Except.ok finishToolpath =>
                  some (Except.ok
                    (⟨operationIndex, finishToolpath,
                      [⟨toolIndex, ToolpathPassKind.finish, finishToolpath⟩],
                      now, [], true⟩, []))

/-- Without a positive target depth, the clearance depth defaults to exactly
1 mm and the warning is produced. -/
theorem clearanceDepthAndWarnings_default (targetDepth : Option ℚ)
    (hnopos : ∀ d, targetDepth = some d → ¬ d > 0) :
    clearanceDepthAndWarnings targetDepth = ([clearanceWarning], 1) := by
  cases targetDepth with
  | none => rfl
  | some d =>
      unfold clearanceDepthAndWarnings
      dsimp only
      rw [if_neg (hnopos d rfl)]

/-- Claim C9: for a V-carve operation naming a clearance tool but carrying no
positive `target_depth`, every successful generation substitutes a clearance
depth of exactly 1 mm (the inner offset is computed at `1·tanA` and the
clearance pocket pass at depth 1), attaches the defaulting warning to the
artifact's warnings, and leaves the artifact valid — its status is `Ready`,
not `Invalid`. -/
theorem c9_vcarve_default_clearance_depth (collectOracle : CollectOracle)
    (offsetOracle : OffsetOracle) (skeletonOracle : SkeletonOracle)
    (distOracle : DistOracle) (differenceOracle : PolySet → PolySet → PolySet)
    (inflateOracle : PolySet → ℚ → PolySet) (fuel : ℕ) (tanA : ℚ) (now : ℕ)
    (tools : ToolLibrary) (operationIndex : ℕ) (targetDepth : Option ℚ)
    (toolIndex : ℕ) (targets : OperationTarget) (clearanceIndex : ℕ)
    (artifact : ToolpathArtifact) (warnings : List String)
    (hnopos : ∀ d, targetDepth = some d → ¬ d > 0)
    (hok : generateToolpathForOperationVCarve collectOracle offsetOracle skeletonOracle
        distOracle differenceOracle inflateOracle fuel tanA now tools operationIndex
        targetDepth toolIndex targets (some clearanceIndex)
      = some (Except.ok (artifact, warnings))) :
    clearanceWarning ∈ artifact.warnings ∧
    artifact.isValid = true ∧
    (OperationState.mk false (some artifact)).status
      = ToolpathStatus.ready artifact.generatedAtEpochMs artifact.warnings.length ∧
    ∃ clearanceTool carvePolygons innerPolygons clearanceToolpath,
      tools.tools[clearanceIndex]? = some clearanceTool ∧
      collectOracle targets = Except.ok carvePolygons ∧
      offsetOracle carvePolygons (1 * tanA) = Except.ok innerPolygons ∧
      generateClearanceToolpath differenceOracle inflateOracle fuel innerPolygons
          clearanceTool 1 = some (Except.ok clearanceToolpath) ∧
      artifact.passes.head?
        = some ⟨clearanceIndex, ToolpathPassKind.clearance, clearanceToolpath⟩ := by
  unfold generateToolpathForOperationVCarve at hok
  cases htool : tools.tools[toolIndex]? with
  | none => rw [htool] at hok; exact absurd hok (by simp)
  | some tool =>
      rw [htool] at hok
      dsimp only at hok
      cases hcollect : collectOracle targets with
      | error e => rw [hcollect] at hok; exact absurd hok (by simp)
      | ok carvePolygons =>
          rw [hcollect] at hok
          dsimp only at hok
          cases hct : tools.tools[clearanceIndex]? with
          | none => rw [hct] at hok; exact absurd hok (by simp)
          | some clearanceTool =>
              rw [hct] at hok
              dsimp only at hok
              rw [clearanceDepthAndWarnings_default targetDepth hnopos] at hok
              dsimp only at hok
              cases httype : tool.toolType with
              | endmill d => rw [httype] at hok; exact absurd hok (by simp)
              | ballnose d => rw [httype] at hok; exact absurd hok (by simp)
              | vbit angle =>
                  rw [httype] at hok
                  dsimp only at hok
                  cases hoff : offsetOracle carvePolygons (1 * tanA) with
                  | error e => rw [hoff] at hok; exact absurd hok (by simp)
                  | ok innerPolygons =>
                      rw [hoff] at hok
                      dsimp only at hok
                      cases hclr : generateClearanceToolpath differenceOracle inflateOracle
                          fuel innerPolygons clearanceTool 1 with
                      | none => rw [hclr] at hok; exact absurd hok (by simp)
                      | some clr =>
                          rw [hclr] at hok
                          cases clr with
                          | error e => exact absurd hok (by simp)
                          | ok clearanceToolpath =>
                              dsimp only at hok
                              cases hfin : generateVcarveToolpath offsetOracle
                                  skeletonOracle distOracle tanA carvePolygons tool
                                  targetDepth with
                              | error e => rw [hfin] at hok; exact absurd hok (by simp)
                              | ok finishToolpath =>
                                  rw [hfin] at hok
                                  dsimp only at hok
                                  have hart : artifact
                                      = ⟨operationIndex, finishToolpath,
                                          [⟨clearanceIndex, ToolpathPassKind.clearance,
                                              clearanceToolpath⟩,
                                            ⟨toolIndex, ToolpathPassKind.finish,
                                              finishToolpath⟩],
                                          now, [clearanceWarning], true⟩ := by
                                    cases hok
                                    rfl
                                  subst hart
                                  refine ⟨by simp, rfl, rfl,
                                    clearanceTool, carvePolygons, innerPolygons,
                                    clearanceToolpath, rfl, rfl, hoff, hclr, rfl⟩

/-- The artifact produced by the C9 witness run (`target_depth = -1`, not
positive, so the default fires; the skeleton vertices sit above stock since
the oracle distance is negative, which the claim does not constrain). -/
def artifactC9 : ToolpathArtifact :=
  ⟨0, ⟨[[(1, 1, 2), (2, 2, 2)]]⟩,
    [⟨1, ToolpathPassKind.clearance, ⟨[]⟩⟩,
     ⟨0, ToolpathPassKind.finish, ⟨[[(1, 1, 2), (2, 2, 2)]]⟩⟩],
    42, [clearanceWarning], true⟩

set_option maxRecDepth 8000 in
/-- Witness for C9 at a concrete run: V-bit tool 0, clearance tool 1, no
target depth; the clearance pass is generated at depth exactly 1, the warning
attached, and the artifact reads as Ready. -/
theorem c9_witness :
    clearanceWarning ∈ artifactC9.warnings ∧
    artifactC9.isValid = true ∧
    (OperationState.mk false (some artifactC9)).status
      = ToolpathStatus.ready artifactC9.generatedAtEpochMs artifactC9.warnings.length ∧
    ∃ clearanceTool carvePolygons innerPolygons clearanceToolpath,
      (ToolLibrary.mk [vbit60, endmill6W]).tools[(1 : ℕ)]? = some clearanceTool ∧
      (fun (_ : OperationTarget) =>
          (Except.ok [(⟨sqC3, []⟩ : CarvePolygon)] : Except String (List CarvePolygon)))
          (OperationTarget.curves [0]) = Except.ok carvePolygons ∧
      (fun (_ : List CarvePolygon) (_ : ℚ) =>
          (Except.ok [] : Except String (List CarvePolygon))) carvePolygons (1 * 1)
        = Except.ok innerPolygons ∧
      generateClearanceToolpath (fun a _ => a) (fun _ _ => []) 1 innerPolygons
          clearanceTool 1 = some (Except.ok clearanceToolpath) ∧
      artifactC9.passes.head?
        = some ⟨1, ToolpathPassKind.clearance, clearanceToolpath⟩ :=
  c9_vcarve_default_clearance_depth (fun _ => Except.ok [⟨sqC3, []⟩])
    (fun _ _ => Except.ok []) (fun _ => [[(1, 1), (2, 2)]]) (fun _ _ => -2)
    (fun a _ => a) (fun _ _ => []) 1 1 42 ⟨[vbit60, endmill6W]⟩ 0 (some (-1)) 0
    (OperationTarget.curves [0]) 1 artifactC9 [clearanceWarning]
    (fun d h => by
      have hd : d = -1 := by
        cases h
        rfl
      rw [hd]
      norm_num)
    (by with_unfolding_all rfl)

/-!
## Circle flattening (`geometry/curve.rs`, `Curve::flatten`, Circle arm)

The circle arm computes `num_segments = ceil(2πr/tolerance).max(4.0)` and
samples `cos`/`sin` at `2π·i/num_segments`.  The `f64` trigonometry is
idealised over `ℝ` (the standard reading under which the spec's "the last
sample equals the first" is meaningful); π, cos and sin are `Real.pi`,
`Real.cos`, `Real.sin`.
-/

/-- `curve.rs` lines 35-48: the circle arm of `Curve::flatten`. -/
noncomputable def flattenCircle (center : ℝ × ℝ) (radius tolerance : ℝ) :
    List (ℝ × ℝ) :=
  let numSegments := (max ⌈2 * Real.pi * radius / tolerance⌉ 4).toNat
  (List.range (numSegments + 1)).map (fun (i : ℕ) =>
    let angle := 2 * Real.pi * (i : ℝ) / (numSegments : ℝ)
    (center.1 + radius * Real.cos angle, center.2 + radius * Real.sin angle))

/-- `curve.rs` lines 38-40: the segment count. -/
noncomputable def circleNumSegments (radius tolerance : ℝ) : ℕ :=
  (max ⌈2 * Real.pi * radius / tolerance⌉ 4).toNat

/-- The segment count is at least 4. -/
theorem circleNumSegments_ge_four (radius tolerance : ℝ) :
    4 ≤ circleNumSegments radius tolerance := by
  unfold circleNumSegments
  have h4 : (4 : ℤ) ≤ max ⌈2 * Real.pi * radius / tolerance⌉ 4 := le_max_right _ _
  have h5 := Int.toNat_le_toNat h4
  exact h5

/-- Claim C8: for every circle and positive tolerance, `flatten` returns
exactly `N + 1` equi-angular samples with `N = max(4, ⌈2πr/ε⌉)` (so at least
5 points), and the last sample equals the first — in particular first and
last are within 1.0 of each other. -/
theorem c8_circle_flatten (center : ℝ × ℝ) (radius tolerance : ℝ)
    (htol : 0 < tolerance) :
    (flattenCircle center radius tolerance).length
        = circleNumSegments radius tolerance + 1 ∧
    4 ≤ circleNumSegments radius tolerance ∧
    5 ≤ (flattenCircle center radius tolerance).length ∧
    (flattenCircle center radius tolerance).head?
        = (flattenCircle center radius tolerance).getLast? ∧
    (((flattenCircle center radius tolerance).head?.getD (0, 0)).1
          - ((flattenCircle center radius tolerance).getLast?.getD (0, 0)).1) ^ 2
      + (((flattenCircle center radius tolerance).head?.getD (0, 0)).2
          - ((flattenCircle center radius tolerance).getLast?.getD (0, 0)).2) ^ 2
      ≤ 1 := by
  have h4 := circleNumSegments_ge_four radius tolerance
  set N := circleNumSegments radius tolerance with hN
  have hflat : flattenCircle center radius tolerance
      = (List.range (N + 1)).map (fun (i : ℕ) =>
          (center.1 + radius * Real.cos (2 * Real.pi * (i : ℝ) / (N : ℝ)),
           center.2 + radius * Real.sin (2 * Real.pi * (i : ℝ) / (N : ℝ)))) := by
    unfold flattenCircle circleNumSegments at *
    rfl
  have hlen : (flattenCircle center radius tolerance).length = N + 1 := by
    rw [hflat]
    simp
  have hNne : (N : ℝ) ≠ 0 := by
    have hpos : 0 < N := by omega
    exact_mod_cast hpos.ne.symm
  have hangle : 2 * Real.pi * (N : ℝ) / (N : ℝ) = 2 * Real.pi := by
    rw [mul_div_assoc, div_self hNne, mul_one]
  have hhead : (flattenCircle center radius tolerance).head?
      = some (center.1 + radius, center.2) := by
    rw [hflat, List.head?_eq_getElem?]
    simp
  have hlast : (flattenCircle center radius tolerance).getLast?
      = some (center.1 + radius, center.2) := by
    rw [hflat, List.getLast?_eq_getElem?]
    simp [hangle, Real.cos_two_pi, Real.sin_two_pi]
  refine ⟨hlen, h4, by omega, ?_, ?_⟩
  · rw [hhead, hlast]
  · rw [hhead, hlast]
    simp

/-- Witness for C8 at radius 1, tolerance 1000. -/
theorem c8_witness :
    (flattenCircle (0, 0) 1 1000).length = circleNumSegments 1 1000 + 1 ∧
    4 ≤ circleNumSegments 1 1000 ∧
    5 ≤ (flattenCircle (0, 0) 1 1000).length ∧
    (flattenCircle (0, 0) 1 1000).head? = (flattenCircle (0, 0) 1 1000).getLast? ∧
    (((flattenCircle (0, 0) 1 1000).head?.getD (0, 0)).1
          - ((flattenCircle (0, 0) 1 1000).getLast?.getD (0, 0)).1) ^ 2
      + (((flattenCircle (0, 0) 1 1000).head?.getD (0, 0)).2
          - ((flattenCircle (0, 0) 1 1000).getLast?.getD (0, 0)).2) ^ 2
      ≤ 1 :=
  c8_circle_flatten (0, 0) 1 1000 (by norm_num)
